import Mathlib

/-!
Verification of the `analytics` background-telemetry service of the
pyroscope repository (package `analytics`, `src/unnamed/part_000`) and its
persistence helpers (`src/pkg/storage/analytics.go`).

The Go code is shallowly embedded: the `storage.Analytics` struct becomes a
Lean structure; the `reflect`-based merge loop is embedded together with an
explicit model of the reflection values it manipulates (`reflect.Value.FieldByName`,
struct tags, `reflect.Kind`); fallible operations (reflection panics, nil
dereference in `ReadAnalytics`, closing a closed channel in `Stop`) return
`Option`, with `none` standing for a Go panic.  Go `int` is 64-bit; integer
fields are modelled as `Int` (the only addition in the code sits on an
unreachable branch, so wrap-around never manifests).
-/

namespace Pyroscope

/-- The `storage.Analytics` struct of `src/pkg/storage/analytics.go`, field for
field and in declaration order.  `Timestamp` is a `time.Time` in Go (a struct,
modelled as an `Int` instant); every other non-string field is a Go `int`. -/
structure Analytics where
  InstallID : String
  RunID : String
  Version : String
  Timestamp : Int
  UploadIndex : Int
  GOOS : String
  GOARCH : String
  GoVersion : String
  MemAlloc : Int
  MemTotalAlloc : Int
  MemSys : Int
  MemNumGC : Int
  BadgerMain : Int
  BadgerTrees : Int
  BadgerDicts : Int
  BadgerDimensions : Int
  BadgerSegments : Int
  ControllerIndex : Int
  ControllerComparison : Int
  ControllerDiff : Int
  ControllerIngest : Int
  ControllerRender : Int
  SpyRbspy : Int
  SpyPyspy : Int
  SpyGospy : Int
  SpyEbpfspy : Int
  SpyPhpspy : Int
  SpyDotnetspy : Int
  SpyJavaspy : Int
  AppsCount : Int

/-- The zero value `storage.Analytics{}`: empty strings, zero time, zero ints. -/
def zeroAnalytics : Analytics :=
  Analytics.mk "" "" "" 0 0 "" "" "" 0 0 0 0 0 0 0 0 0 0 0 0 0 0 0 0 0 0 0 0 0 0

/-- The subset of `reflect.Kind` the merge loop distinguishes: the five signed
integer kinds of its `switch`, plus the kinds actually occurring in
`Analytics` (`String` for string fields, `Struct` for `time.Time` and for the
`Analytics` struct type itself) and a catch-all. -/
inductive Kind where
  | int
  | int8
  | int16
  | int32
  | int64
  | str
  | struct
  | other
  deriving Repr, DecidableEq

/-- A dynamically typed field value, the model of a valid `reflect.Value`
obtained from a field of `Analytics`. -/
inductive FieldVal where
  | intVal : Int → FieldVal
  | strVal : String → FieldVal
  | timeVal : Int → FieldVal
  deriving Repr, DecidableEq

/-- One `reflect.StructField` of `Analytics`: its name, the value of its
`type:"..."` struct tag if present (the only tag key the code looks up), and
the `reflect.Kind` of the field's type. -/
structure GoField where
  name : String
  typeTag : Option String
  kind : Kind
  deriving Repr, DecidableEq

/-- A `reflect.Type` for a struct: its `Name()`, its `Kind()` and its fields. -/
structure GoStructType where
  name : String
  kind : Kind
  fields : List GoField
  deriving Repr, DecidableEq

/-- The fields of `storage.Analytics`, in order, with the `type:"counter"`
tags exactly where `src/pkg/storage/analytics.go` declares them: the five
Badger size fields and nothing else. -/
def analyticsFields : List GoField :=
  [⟨"InstallID", none, .str⟩,
   ⟨"RunID", none, .str⟩,
   ⟨"Version", none, .str⟩,
   ⟨"Timestamp", none, .struct⟩,
   ⟨"UploadIndex", none, .int⟩,
   ⟨"GOOS", none, .str⟩,
   ⟨"GOARCH", none, .str⟩,
   ⟨"GoVersion", none, .str⟩,
   ⟨"MemAlloc", none, .int⟩,
   ⟨"MemTotalAlloc", none, .int⟩,
   ⟨"MemSys", none, .int⟩,
   ⟨"MemNumGC", none, .int⟩,
   ⟨"BadgerMain", some "counter", .int⟩,
   ⟨"BadgerTrees", some "counter", .int⟩,
   ⟨"BadgerDicts", some "counter", .int⟩,
   ⟨"BadgerDimensions", some "counter", .int⟩,
   ⟨"BadgerSegments", some "counter", .int⟩,
   ⟨"ControllerIndex", none, .int⟩,
   ⟨"ControllerComparison", none, .int⟩,
   ⟨"ControllerDiff", none, .int⟩,
   ⟨"ControllerIngest", none, .int⟩,
   ⟨"ControllerRender", none, .int⟩,
   ⟨"SpyRbspy", none, .int⟩,
   ⟨"SpyPyspy", none, .int⟩,
   ⟨"SpyGospy", none, .int⟩,
   ⟨"SpyEbpfspy", none, .int⟩,
   ⟨"SpyPhpspy", none, .int⟩,
   ⟨"SpyDotnetspy", none, .int⟩,
   ⟨"SpyJavaspy", none, .int⟩,
   ⟨"AppsCount", none, .int⟩]

/-- The `reflect.Type` of `storage.Analytics` itself: `Name()` is
`"Analytics"` and `Kind()` is `reflect.Struct`. -/
def analyticsType : GoStructType := ⟨"Analytics", .struct, analyticsFields⟩

/-- `reflect.Value.FieldByName` on an `Analytics` value: the field of that
name, or `none` (the zero `reflect.Value`) when no field has the name. -/
def fieldByName (a : Analytics) : String → Option FieldVal
  | "InstallID" => some (.strVal a.InstallID)
  | "RunID" => some (.strVal a.RunID)
  | "Version" => some (.strVal a.Version)
  | "Timestamp" => some (.timeVal a.Timestamp)
  | "UploadIndex" => some (.intVal a.UploadIndex)
  | "GOOS" => some (.strVal a.GOOS)
  | "GOARCH" => some (.strVal a.GOARCH)
  | "GoVersion" => some (.strVal a.GoVersion)
  | "MemAlloc" => some (.intVal a.MemAlloc)
  | "MemTotalAlloc" => some (.intVal a.MemTotalAlloc)
  | "MemSys" => some (.intVal a.MemSys)
  | "MemNumGC" => some (.intVal a.MemNumGC)
  | "BadgerMain" => some (.intVal a.BadgerMain)
  | "BadgerTrees" => some (.intVal a.BadgerTrees)
  | "BadgerDicts" => some (.intVal a.BadgerDicts)
  | "BadgerDimensions" => some (.intVal a.BadgerDimensions)
  | "BadgerSegments" => some (.intVal a.BadgerSegments)
  | "ControllerIndex" => some (.intVal a.ControllerIndex)
  | "ControllerComparison" => some (.intVal a.ControllerComparison)
  | "ControllerDiff" => some (.intVal a.ControllerDiff)
  | "ControllerIngest" => some (.intVal a.ControllerIngest)
  | "ControllerRender" => some (.intVal a.ControllerRender)
  | "SpyRbspy" => some (.intVal a.SpyRbspy)
  | "SpyPyspy" => some (.intVal a.SpyPyspy)
  | "SpyGospy" => some (.intVal a.SpyGospy)
  | "SpyEbpfspy" => some (.intVal a.SpyEbpfspy)
  | "SpyPhpspy" => some (.intVal a.SpyPhpspy)
  | "SpyDotnetspy" => some (.intVal a.SpyDotnetspy)
  | "SpyJavaspy" => some (.intVal a.SpyJavaspy)
  | "AppsCount" => some (.intVal a.AppsCount)
  | _ => none

/-- `reflect.Value.Field(i)` on an `Analytics` value: the `i`-th field in
declaration order (`none` past the end, which the loop never reaches). -/
def fieldByIndex (a : Analytics) (i : Nat) : Option FieldVal :=
  (analyticsFields.get? i).bind (fun f => fieldByName a f.name)

/-- `fieldtype.Field(i).Tag.Lookup("type")` of the merge loop: the `type` tag
of the `i`-th struct field, when declared. -/
def tagLookup (t : GoStructType) (i : Nat) : Option String :=
  (t.fields.get? i).bind (fun f => f.typeTag)

/-- `(*Service).mergeAnalytics` of `src/unnamed/part_000`, line for line.

```
retv := storage.Analytics{}
cu := reflect.ValueOf(*current)
bs := reflect.ValueOf(*baseline)
ret := reflect.ValueOf(retv)
for i := 0; i < bs.NumField(); i++ {
    field := bs.Field(i)
    fieldtype := bs.Type()                          // the STRUCT type, not the field
    fieldCurrent := cu.FieldByName(fieldtype.Name()) // FieldByName("Analytics"): zero Value
    fieldRet := ret.FieldByName(fieldtype.Name())    // zero Value
    t, ok := fieldtype.Field(i).Tag.Lookup("type")
    if ok && t == "counter" {
        switch fieldtype.Kind() {                   // reflect.Struct, never an Int kind
        case reflect.Int, ..., reflect.Int64:
            fieldRet.SetInt(field.Int() + fieldCurrent.Int())
        }
    }
}
return &retv
```

The `SetInt` arm would panic (`fieldRet` is the zero Value and `retv` was
obtained by value, hence unaddressable), so that arm is `none`; a completed
loop returns `some retv`. -/
def mergeAnalytics (baseline current : Analytics) : Option Analytics :=
  let retv : Analytics := zeroAnalytics
  (List.range analyticsType.fields.length).foldlM
    (fun retv i =>
      let field := fieldByIndex baseline i
      let fieldtype := analyticsType
      let fieldCurrent := fieldByName current fieldtype.name
      let fieldRet := fieldByName retv fieldtype.name
      match tagLookup fieldtype i with
      | some t =>
          if t = "counter" then
            match fieldtype.kind with
            | .int | .int8 | .int16 | .int32 | .int64 =>
                -- fieldRet.SetInt(field.Int() + fieldCurrent.Int()) panics here
                none
            | _ => some retv
          else some retv
      | none => some retv)
    retv

/-- `(*Storage).ReadAnalytics` of `src/pkg/storage/analytics.go`.  The store
is modelled as the decoded value under the `"analytics"` key (`none` when the
key was never written).  The code runs

```
v, e := txn.Get([]byte("analytics"))
v.Value(func(val []byte) error { e = json.Unmarshal(val, &a); return e })
```

without checking `e`: on a missing key badger returns a nil `*Item`, and the
`v.Value` call dereferences nil — a panic, modelled as `none`.  When a
snapshot is stored, `json.Unmarshal` fills `a` with it. -/
def ReadAnalytics (store : Option Analytics) : Option Analytics :=
  match store with
  | none => none
  | some a => some a

/-- The fields of `runtime.MemStats` that `getAnalytics` reads. -/
structure MemStats where
  Alloc : Int
  TotalAlloc : Int
  Sys : Int
  NumGC : Int

/-- The live inputs of one `(*Service).getAnalytics` call: install identity
and disk usage from the storage collaborator, a fresh uuid, the build
version, the clock, runtime platform identifiers and memory statistics, and
the `StatsProvider`'s named counters and app count.  Go map indexing yields
the zero value for a missing key, so `du` and `controllerStats` are total
functions. -/
structure BuildEnv where
  installID : String
  runID : String
  version : String
  now : Int
  goos : String
  goarch : String
  goVersion : String
  ms : MemStats
  du : String → Int
  controllerStats : String → Int
  appsCount : Int

/-- `(*Service).getAnalytics` of `src/unnamed/part_000`: builds a fresh
snapshot, embedding the service's `uploads` counter as `UploadIndex`. -/
def getAnalytics (uploads : Int) (e : BuildEnv) : Analytics :=
  { InstallID := e.installID
    RunID := e.runID
    Version := e.version
    Timestamp := e.now
    UploadIndex := uploads
    GOOS := e.goos
    GOARCH := e.goarch
    GoVersion := e.goVersion
    MemAlloc := e.ms.Alloc
    MemTotalAlloc := e.ms.TotalAlloc
    MemSys := e.ms.Sys
    MemNumGC := e.ms.NumGC
    BadgerMain := e.du "main"
    BadgerTrees := e.du "trees"
    BadgerDicts := e.du "dicts"
    BadgerDimensions := e.du "dimensions"
    BadgerSegments := e.du "segments"
    ControllerIndex := e.controllerStats "index"
    ControllerComparison := e.controllerStats "comparison"
    ControllerDiff := e.controllerStats "diff"
    ControllerIngest := e.controllerStats "ingest"
    ControllerRender := e.controllerStats "render"
    SpyRbspy := e.controllerStats "ingest:rbspy"
    SpyPyspy := e.controllerStats "ingest:pyspy"
    SpyGospy := e.controllerStats "ingest:gospy"
    SpyEbpfspy := e.controllerStats "ingest:ebpfspy"
    SpyPhpspy := e.controllerStats "ingest:phpspy"
    SpyDotnetspy := e.controllerStats "ingest:dotnetspy"
    SpyJavaspy := e.controllerStats "ingest:javaspy"
    AppsCount := e.appsCount }

/-- An observable effect of the service: a `SaveAnalytics` write, a POST of a
payload to the collector (`httpClient.Post`), or a `mergeAnalytics` call with
its two arguments. -/
inductive Action where
  | save : Analytics → Action
  | post : Analytics → Action
  | mergeCall : Analytics → Analytics → Action

/-- Outcome of the single `httpClient.Post` of `sendReport`: a transport
error (`err != nil`, `resp == nil`), or a response whose body read succeeds
or fails. -/
inductive PostOutcome where
  | postErr
  | resp : (readOk : Bool) → PostOutcome
  deriving Repr, DecidableEq

/-- The fallible outside world of one `sendReport` call: whether
`json.Marshal` succeeds and how the POST goes. -/
structure ReportEnv where
  marshalOk : Bool
  post : PostOutcome
  deriving Repr, DecidableEq

/-- `(*Service).sendReport` of `src/unnamed/part_000`: build, merge against
the given baseline, marshal (on failure log and return — no POST), POST once,
log a transport error without returning, read the response body when a
response arrived (on failure log and return — skipping `s.uploads++`), then
increment `s.uploads`.  Returns the new `uploads` value and the actions
performed; never faults (the merge's faulting branch is unreachable). -/
def sendReport (uploads : Int) (baseline : Analytics) (benv : BuildEnv)
    (renv : ReportEnv) : Option (Int × List Action) :=
  let m := getAnalytics uploads benv
  (mergeAnalytics baseline m).bind (fun merged =>
    if renv.marshalOk = false then
      some (uploads, [Action.mergeCall baseline m])
    else
      match renv.post with
      | .postErr => some (uploads + 1, [Action.mergeCall baseline m, Action.post merged])
      | .resp true => some (uploads + 1, [Action.mergeCall baseline m, Action.post merged])
      | .resp false => some (uploads, [Action.mergeCall baseline m, Action.post merged]))

/-- An event the `Start` loop can observe: the upload ticker firing (with the
build inputs and network outcome of that cycle), the snapshot ticker firing
(with the build inputs of that cycle), or the stop signal becoming readable. -/
inductive Ev where
  | uploadTick : BuildEnv → ReportEnv → Ev
  | snapshotTick : BuildEnv → Ev
  | stopRecv : Ev

/-- The mutable service state the `Start` loop carries: `s.uploads` and
`s.baseline`. -/
structure LoopState where
  uploads : Int
  baseline : Analytics

/-- The `for { select { ... } }` loop of `(*Service).Start`, applied to the
sequence of events it observes, in order.  `uploadTick` runs `sendReport`;
`snapshotTick` runs `m := s.getAnalytics(); m = s.mergeAnalytics(s.baseline, m);
s.s.SaveAnalytics(m)`; `stopRecv` returns from `Start`.  Produces the final
state and the trace of actions. -/
def runLoop (st : LoopState) : List Ev → Option (LoopState × List Action)
  | [] => some (st, [])
  | Ev.stopRecv :: _ => some (st, [])
  | Ev.uploadTick benv renv :: rest =>
      (sendReport st.uploads st.baseline benv renv).bind (fun p =>
        (runLoop ⟨p.1, st.baseline⟩ rest).map (fun q =>
          (q.1, p.2 ++ q.2)))
  | Ev.snapshotTick benv :: rest =>
      let m := getAnalytics st.uploads benv
      (mergeAnalytics st.baseline m).bind (fun merged =>
        (runLoop st rest).map (fun q =>
          (q.1, Action.mergeCall st.baseline m :: Action.save merged :: q.2)))

/-- Which arm of the grace-period `select` in `Start` wins: the stop channel
becomes readable first, or the one-shot grace timer fires first. -/
inductive GraceEv where
  | stopFirst
  | timerFired
  deriving Repr, DecidableEq

/-- Result of a completed `Start`: the final service state and the trace of
actions `Start` itself performed. -/
structure RunOutcome where
  st : LoopState
  actions : List Action

/-- `(*Service).Start` of `src/unnamed/part_000`: set `s.baseline` from
`s.s.ReadAnalytics()` (which panics when nothing is stored), wait out the
grace select (`stopFirst` returns at once, performing nothing), otherwise run
the immediate `s.sendReport()` (with inputs `benv0`, `renv0`) and enter the
ticker loop on the remaining events. -/
def Start (store : Option Analytics) (g : GraceEv) (benv0 : BuildEnv)
    (renv0 : ReportEnv) (evs : List Ev) : Option RunOutcome :=
  (ReadAnalytics store).bind (fun baseline =>
    match g with
    | .stopFirst => some ⟨⟨0, baseline⟩, []⟩
    | .timerFired =>
        (sendReport 0 baseline benv0 renv0).bind (fun p =>
          (runLoop ⟨p.1, baseline⟩ evs).map (fun q =>
            ⟨q.1, p.2 ++ q.2⟩)))

/-- The write `(*Service).Stop` performs before closing the stop channel:
`s.s.SaveAnalytics(s.getAnalytics())` — the raw build, not merged. -/
def StopWrite (uploads : Int) (stopBenv : BuildEnv) : Action :=
  Action.save (getAnalytics uploads stopBenv)

/-- The system trace when `Stop` is called while `Start` still waits in the
grace select and the stop signal wins it: `Stop`'s own save happens, the stop
channel is closed, `Start` returns without acting, `close(s.done)` releases
`Stop`. -/
def stopDuringGrace (store : Option Analytics) (benv0 : BuildEnv)
    (renv0 : ReportEnv) (stopBenv : BuildEnv) : Option (List Action) :=
  (Start store .stopFirst benv0 renv0 []).map (fun r =>
    StopWrite r.st.uploads stopBenv :: r.actions)

/-- The system trace when `Stop` is called while the `Start` loop is running:
the loop handles the events `evs`, then `Stop`'s save of the raw build
happens, the stop channel is closed, the loop's next `select` takes the stop
arm and `Start` returns, `close(s.done)` releases `Stop`. -/
def stopWhileRunning (baseline : Analytics) (uploads0 : Int) (evs : List Ev)
    (stopBenv : BuildEnv) : Option (List Action) :=
  (runLoop ⟨uploads0, baseline⟩ evs).map (fun q =>
    q.2 ++ [StopWrite q.1.uploads stopBenv])

/-- A Go channel, for the `stop`/`done` signalling: only whether it has been
closed matters here. -/
structure Chan where
  closed : Bool
  deriving Repr, DecidableEq

/-- `close` on a channel: closing an already-closed channel panics. -/
def closeChan (c : Chan) : Option Chan :=
  if c.closed then none else some ⟨true⟩

/-- The two channels of a `Service`, as `NewService` makes them. -/
structure SvcChans where
  stop : Chan
  done : Chan
  deriving Repr, DecidableEq

/-- `NewService` of `src/unnamed/part_000`: `stop: make(chan struct{}),
done: make(chan struct{})` — both open. -/
def NewService : SvcChans := ⟨⟨false⟩, ⟨false⟩⟩

/-- The channel effect of `(*Service).Stop`: after its `SaveAnalytics` call
(which always succeeds and touches no channel), `close(s.stop)` — a panic if
`s.stop` is already closed — then `<-s.done` (readable once `Start` has
returned). -/
def Stop (s : SvcChans) : Option SvcChans :=
  (closeChan s.stop).map (fun st => ⟨st, s.done⟩)

/-- Saves in a trace: the `SaveAnalytics` calls. -/
def countSaves (tr : List Action) : Nat :=
  tr.countP (fun a => match a with | .save _ => true | _ => false)

/-- POSTs in a trace: the `httpClient.Post` roundtrips. -/
def countPosts (tr : List Action) : Nat :=
  tr.countP (fun a => match a with | .post _ => true | _ => false)

/-- The baseline of the spec's end-to-end example: `{BadgerMain:10}`. -/
def exBaseline : Analytics := { zeroAnalytics with BadgerMain := 10 }

/-- The current build of the spec's end-to-end example:
`{BadgerMain:3, AppsCount:7}`. -/
def exCurrent : Analytics := { zeroAnalytics with BadgerMain := 3, AppsCount := 7 }

/-- A concrete set of build inputs, for evaluating the model. -/
def benvEx : BuildEnv :=
  { installID := "install-1"
    runID := "run-1"
    version := "0.0.1"
    now := 100
    goos := "linux"
    goarch := "amd64"
    goVersion := "go1.15"
    ms := ⟨1, 2, 3, 4⟩
    du := fun _ => 0
    controllerStats := fun _ => 0
    appsCount := 0 }

/-- Build inputs under which the built snapshot is visibly nonzero:
disk usage 3 under `"main"` and 7 apps, the spec's end-to-end numbers. -/
def benvStop : BuildEnv :=
  { benvEx with
    now := 0
    ms := ⟨0, 0, 0, 0⟩
    installID := ""
    runID := ""
    version := ""
    goos := ""
    goarch := ""
    goVersion := ""
    du := fun k => if k = "main" then 3 else 0
    appsCount := 7 }

/-- A fully successful network environment: marshal succeeds, the POST gets a
response, the body read succeeds. -/
def renvEx : ReportEnv := ⟨true, .resp true⟩

/-- An HTTP response as `sendReport` receives it: whether its status code is
a success (2xx) — which the code never inspects — and whether reading its
body succeeds. -/
structure HttpResp where
  statusOk : Bool
  readOk : Bool
  deriving Repr, DecidableEq

/-- Outcome of the single `httpClient.Post`, with the response's status code
kept: a transport error (`err != nil`, `resp == nil`), or a response. -/
inductive PostFull where
  | postErr
  | resp : HttpResp → PostFull
  deriving Repr, DecidableEq

/-- The fallible outside world of one `sendReport` call, status code
included. -/
structure ReportEnvFull where
  marshalOk : Bool
  post : PostFull
  deriving Repr, DecidableEq

/-- `(*Service).sendReport` again, now also recording the `logrus` error
logs it emits and the response status it was given.  Line for line:

```
buf, err := json.Marshal(m)
if err != nil { log "Error happened when preparing JSON"; return }
resp, err := s.httpClient.Post(url, ...)
if err != nil { log "Error happened when uploading anonymized usage data" }  // no return
if resp != nil {
    _, err := io.ReadAll(resp.Body)
    if err != nil { log "Error happened when uploading reading server response"; return }
}
s.uploads++
```

`resp.StatusCode` is never read: a non-2xx response takes the same path as a
2xx one — body read, nothing logged, `uploads` incremented.  Returns the new
`uploads` value, the number of POST roundtrips, and the logs emitted. -/
def sendReportLogged (uploads : Int) (baseline : Analytics) (benv : BuildEnv)
    (renv : ReportEnvFull) : Option (Int × Nat × List String) :=
  let m := getAnalytics uploads benv
  (mergeAnalytics baseline m).bind (fun merged =>
    if renv.marshalOk = false then
      some (uploads, 0, ["Error happened when preparing JSON"])
    else
      match renv.post with
      | .postErr =>
          some (uploads + 1, 1, ["Error happened when uploading anonymized usage data"])
      | .resp r =>
          if r.readOk = false then
            some (uploads, 1, ["Error happened when uploading reading server response"])
          else
            some (uploads + 1, 1, []))

/-- Forgetting the status bit relates the logged model to the trace model. -/
def forgetStatus : PostFull → PostOutcome
  | .postErr => .postErr
  | .resp r => .resp r.readOk

/-- Shared evaluation of the merge loop: because the loop switches on the
struct type's `Kind()` (`reflect.Struct`) instead of the field's, no case of
the `switch` ever matches, no field of `retv` is ever assigned, and the merge
returns the zero-valued `Analytics` for every pair of inputs. -/
theorem mergeAnalytics_eq (B C : Analytics) :
    mergeAnalytics B C = some zeroAnalytics := rfl

/-- Claim C1 — the code contradicts it (code bug).  At the spec's own
end-to-end example (baseline `{BadgerMain:10}`, current `{BadgerMain:3}`),
the merged snapshot's `BadgerMain` is `0`, not the claimed `10 + 3 = 13`:
`mergeAnalytics` switches on the struct type's kind instead of the field's,
so the counter addition never runs. -/
theorem mergeAnalytics_drops_counters :
    (mergeAnalytics exBaseline exCurrent).map (fun a => a.BadgerMain) = some 0 ∧
    exBaseline.BadgerMain + exCurrent.BadgerMain = 13 := ⟨rfl, rfl⟩

/-- Claim C2 — the code contradicts it.  At the same example, the non-counter
field `AppsCount` of the merged snapshot is `0`, not `current`'s `7`: the
result struct starts zero-valued and the loop never copies any field from
`current`. -/
theorem mergeAnalytics_drops_gauges :
    (mergeAnalytics exBaseline exCurrent).map (fun a => a.AppsCount) = some 0 ∧
    exCurrent.AppsCount = 7 := ⟨rfl, rfl⟩

/-- Claim C5: the merge is total.  For every pair of snapshots, including an
all-zero baseline, `mergeAnalytics` returns a value and never reaches its
faulting `SetInt` arm (the `switch` on the struct's kind matches no integer
case, so every tagged field is skipped and left at its zero value). -/
theorem mergeAnalytics_total (B C : Analytics) :
    ∃ r, mergeAnalytics B C = some r :=
  ⟨zeroAnalytics, mergeAnalytics_eq B C⟩

/-- Claim C4 — the code contradicts it.  When nothing has ever been stored
under the `"analytics"` key, `txn.Get` returns a nil item and `v.Value` is
called on it without an error check: `ReadAnalytics` panics (`none`) instead
of returning the zero-valued snapshot. -/
theorem ReadAnalytics_faults_when_empty :
    ReadAnalytics (none : Option Analytics) = none := rfl

/-- Claim C10: `Stop` is not idempotent.  Once a `Stop` call has completed,
the stop channel is closed, and the second `Stop`'s `close(s.stop)` closes a
closed channel — a panic. -/
theorem Stop_not_idempotent (s s' : SvcChans) (h : Stop s = some s') :
    Stop s' = none := by
  unfold Stop closeChan at h ⊢
  by_cases hc : s.stop.closed
  · simp [hc] at h
  · simp [hc] at h
    rw [← h]
    simp

/-- Concrete instance of C10: the first `Stop` on a fresh service succeeds
and leaves the stop channel closed; stopping that service again panics. -/
theorem Stop_not_idempotent_witness :
    Stop (SvcChans.mk ⟨true⟩ ⟨false⟩) = none :=
  Stop_not_idempotent NewService (SvcChans.mk ⟨true⟩ ⟨false⟩) rfl

/-- The logged model agrees with the trace model of `sendReport`: forgetting
the status bit and the logs, both give the same uploads counter and the same
number of POST roundtrips (helper, coherence of the two views of the same
source function). -/
theorem sendReportLogged_refines_sendReport (uploads : Int)
    (baseline : Analytics) (benv : BuildEnv) (renv : ReportEnvFull) :
    ∃ u n logs tr,
      sendReportLogged uploads baseline benv renv = some (u, n, logs) ∧
      sendReport uploads baseline benv ⟨renv.marshalOk, forgetStatus renv.post⟩ =
        some (u, tr) ∧
      countPosts tr = n := by
  obtain ⟨mOk, po⟩ := renv
  cases mOk with
  | false => exact ⟨_, _, _, _, rfl, rfl, rfl⟩
  | true =>
    cases po with
    | postErr => exact ⟨_, _, _, _, rfl, rfl, rfl⟩
    | resp r =>
      obtain ⟨sOk, rOk⟩ := r
      cases rOk with
      | false => exact ⟨_, _, _, _, rfl, rfl, rfl⟩
      | true => exact ⟨_, _, _, _, rfl, rfl, rfl⟩

/-- Claim C6 — contradicted on its "every ... non-success response ... is
logged" part: a non-2xx response whose body reads fine is not logged at all,
and the upload counter is even incremented — `sendReport` never inspects
`resp.StatusCode`, so a non-success response takes exactly the success
path. -/
theorem sendReport_silent_on_bad_status :
    sendReportLogged 5 zeroAnalytics benvEx ⟨true, .resp ⟨false, true⟩⟩ =
      some (6, 1, []) := rfl

/-- Claim C6 as amended: `sendReport` always returns normally to its caller;
a serialization failure is logged and returns with no transmission attempt;
a transport failure and a response-body read failure are each logged and
swallowed; a non-success response is never inspected and never logged — it
is swallowed silently, exactly like success; and at most one HTTP POST
roundtrip occurs per call (exactly one unless serialization failed), with no
retry or queuing. -/
theorem sendReport_logs_and_swallows (uploads : Int) (baseline : Analytics)
    (benv : BuildEnv) (renv : ReportEnvFull) :
    ∃ u logs, sendReportLogged uploads baseline benv renv =
        some (u, (if renv.marshalOk then 1 else 0), logs) ∧
      logs = (if renv.marshalOk = false then
                ["Error happened when preparing JSON"]
              else
                match renv.post with
                | .postErr => ["Error happened when uploading anonymized usage data"]
                | .resp r =>
                    if r.readOk = false then
                      ["Error happened when uploading reading server response"]
                    else []) := by
  obtain ⟨mOk, po⟩ := renv
  cases mOk with
  | false => exact ⟨_, _, rfl, rfl⟩
  | true =>
    cases po with
    | postErr => exact ⟨_, _, rfl, rfl⟩
    | resp r =>
      obtain ⟨sOk, rOk⟩ := r
      cases rOk with
      | false => exact ⟨_, _, rfl, rfl⟩
      | true => exact ⟨_, _, rfl, rfl⟩

/-- Claim C7: when the stop signal wins the grace-period `select`, `Start`
returns without having called `sendReport`, and the only persistence write in
the whole interaction is the one `Stop` makes before it returns: one save,
zero POSTs. -/
theorem stop_during_grace_saves_once (store : Option Analytics)
    (benv0 stopBenv : BuildEnv) (renv0 : ReportEnv) (a : Analytics)
    (h : ReadAnalytics store = some a) :
    ∃ tr, stopDuringGrace store benv0 renv0 stopBenv = some tr ∧
      countSaves tr = 1 ∧ countPosts tr = 0 := by
  cases store with
  | none => exact absurd h (by simp [ReadAnalytics])
  | some b => exact ⟨[Action.save (getAnalytics 0 stopBenv)], rfl, rfl, rfl⟩

/-- Concrete instance of C7: stopping during the grace period of a run whose
baseline read succeeded writes exactly once and never uploads. -/
theorem stop_during_grace_saves_once_witness :
    ∃ tr, stopDuringGrace (some zeroAnalytics) benvEx renvEx benvEx = some tr ∧
      countSaves tr = 1 ∧ countPosts tr = 0 :=
  stop_during_grace_saves_once (some zeroAnalytics) benvEx benvEx renvEx
    zeroAnalytics rfl

/-- Every `mergeCall` a `sendReport` call records takes the baseline the call
was given as its first argument (helper for the lifecycle claims). -/
theorem sendReport_mergeCalls (uploads : Int) (baseline : Analytics)
    (benv : BuildEnv) (renv : ReportEnv) (u : Int) (tr : List Action)
    (h : sendReport uploads baseline benv renv = some (u, tr)) :
    ∀ b c, Action.mergeCall b c ∈ tr → b = baseline := by
  simp only [sendReport, mergeAnalytics_eq, Option.some_bind] at h
  obtain ⟨mOk, po⟩ := renv
  cases mOk with
  | false =>
    simp at h
    obtain ⟨hu, htr⟩ := h
    intro b c hb
    rw [← htr] at hb
    simp at hb
    exact hb.1
  | true =>
    cases po with
    | postErr =>
      simp at h
      obtain ⟨hu, htr⟩ := h
      intro b c hb
      rw [← htr] at hb
      simp at hb
      rcases hb with ⟨hb, _⟩
      exact hb
    | resp rOk =>
      cases rOk <;> (
        simp at h
        obtain ⟨hu, htr⟩ := h
        intro b c hb
        rw [← htr] at hb
        simp at hb
        rcases hb with ⟨hb, _⟩
        exact hb)

/-- The `Start` loop never changes `s.baseline`, and every merge it performs
— from an upload tick or a snapshot tick — takes the state's baseline as its
first argument (helper for claim C9). -/
theorem runLoop_baseline (evs : List Ev) (st st' : LoopState) (tr : List Action)
    (h : runLoop st evs = some (st', tr)) :
    st'.baseline = st.baseline ∧
      ∀ b c, Action.mergeCall b c ∈ tr → b = st.baseline := by
  induction evs generalizing st st' tr with
  | nil =>
    simp only [runLoop, Option.some_inj, Prod.mk.injEq] at h
    obtain ⟨h1, h2⟩ := h
    subst h1; subst h2
    exact ⟨rfl, by simp⟩
  | cons e rest ih =>
    cases e with
    | stopRecv =>
      simp only [runLoop, Option.some_inj, Prod.mk.injEq] at h
      obtain ⟨h1, h2⟩ := h
      subst h1; subst h2
      exact ⟨rfl, by simp⟩
    | uploadTick benv renv =>
      simp only [runLoop, Option.bind_eq_some, Option.map_eq_some',
        Prod.mk.injEq] at h
      obtain ⟨p, hsend, q, hrun, h1, h2⟩ := h
      subst h1; subst h2
      obtain ⟨ihb, ihm⟩ := ih _ _ _ hrun
      refine ⟨ihb, ?_⟩
      intro b c hb
      rcases List.mem_append.mp hb with hb | hb
      · exact sendReport_mergeCalls _ _ _ _ _ _ hsend b c hb
      · exact ihm b c hb
    | snapshotTick benv =>
      simp only [runLoop, mergeAnalytics_eq, Option.some_bind,
        Option.map_eq_some', Prod.mk.injEq] at h
      obtain ⟨q, hrun, h1, h2⟩ := h
      subst h1; subst h2
      obtain ⟨ihb, ihm⟩ := ih _ _ _ hrun
      refine ⟨ihb, ?_⟩
      intro b c hb
      rcases List.mem_cons.mp hb with hb | hb
      · exact (Action.mergeCall.inj hb).1
      · rcases List.mem_cons.mp hb with hb | hb
        · exact absurd hb (by simp)
        · exact ihm b c hb

/-- Claim C9: over a whole run, the in-memory baseline equals the value read
from persistence at the start, is never reassigned, and every merge performed
by any upload or persistence cycle — the immediate post-grace report
included — takes that original read value as its first argument, never a
previous merge result. -/
theorem Start_baseline_immutable (store : Option Analytics) (g : GraceEv)
    (benv0 : BuildEnv) (renv0 : ReportEnv) (evs : List Ev) (b : Analytics)
    (r : RunOutcome) (hread : ReadAnalytics store = some b)
    (hrun : Start store g benv0 renv0 evs = some r) :
    r.st.baseline = b ∧ ∀ c m, Action.mergeCall c m ∈ r.actions → c = b := by
  unfold Start at hrun
  rw [hread] at hrun
  simp only [Option.some_bind] at hrun
  cases g with
  | stopFirst =>
    simp only [Option.some_inj] at hrun
    subst hrun
    exact ⟨rfl, by simp⟩
  | timerFired =>
    simp only [Option.bind_eq_some, Option.map_eq_some'] at hrun
    obtain ⟨p, hsend, q, hloop, heq⟩ := hrun
    subst heq
    obtain ⟨hb, hm⟩ := runLoop_baseline _ _ _ _ hloop
    refine ⟨hb, ?_⟩
    intro c m hc
    rcases List.mem_append.mp hc with hc | hc
    · exact sendReport_mergeCalls _ _ _ _ _ _ hsend c m hc
    · exact hm c m hc

/-- Concrete instance of C9: a run with one upload cycle and one snapshot
cycle keeps the baseline read at start, and both merges take it as first
argument. -/
theorem Start_baseline_immutable_witness :
    (RunOutcome.mk ⟨1, exBaseline⟩
        [Action.mergeCall exBaseline (getAnalytics 0 benvEx),
         Action.post zeroAnalytics,
         Action.mergeCall exBaseline (getAnalytics 1 benvEx),
         Action.save zeroAnalytics]).st.baseline = exBaseline ∧
    ∀ c m, Action.mergeCall c m ∈
        (RunOutcome.mk ⟨1, exBaseline⟩
          [Action.mergeCall exBaseline (getAnalytics 0 benvEx),
           Action.post zeroAnalytics,
           Action.mergeCall exBaseline (getAnalytics 1 benvEx),
           Action.save zeroAnalytics]).actions → c = exBaseline :=
  Start_baseline_immutable (some exBaseline) .timerFired benvEx renvEx
    [Ev.snapshotTick benvEx] exBaseline
    (RunOutcome.mk ⟨1, exBaseline⟩
      [Action.mergeCall exBaseline (getAnalytics 0 benvEx),
       Action.post zeroAnalytics,
       Action.mergeCall exBaseline (getAnalytics 1 benvEx),
       Action.save zeroAnalytics]) rfl rfl

/-- Claim C3 — the code contradicts its "the persisted snapshot is the merged
result" part.  Stopping while the loop runs persists
`s.getAnalytics()` — the raw build — whereas merging that build against the
baseline would give the zero snapshot; at build inputs with 7 apps the two
visibly differ. -/
theorem stopWhileRunning_persists_raw_build :
    stopWhileRunning exBaseline 0 [] benvStop =
      some [Action.save (getAnalytics 0 benvStop)] ∧
    mergeAnalytics exBaseline (getAnalytics 0 benvStop) = some zeroAnalytics ∧
    (getAnalytics 0 benvStop).AppsCount = 7 ∧
    zeroAnalytics.AppsCount = 0 := ⟨rfl, rfl, rfl, rfl⟩

/-- Claim C3 as amended: when `Stop` is invoked while the loop is running,
exactly one additional persistence write occurs — of the raw freshly built
snapshot, with no merge — and it has completed in the trace before `Stop`
returns. -/
theorem stopWhileRunning_amended (baseline : Analytics) (uploads0 : Int)
    (evs : List Ev) (stopBenv : BuildEnv) (st : LoopState) (tr : List Action)
    (h : runLoop ⟨uploads0, baseline⟩ evs = some (st, tr)) :
    stopWhileRunning baseline uploads0 evs stopBenv =
      some (tr ++ [Action.save (getAnalytics st.uploads stopBenv)]) ∧
    countSaves (tr ++ [Action.save (getAnalytics st.uploads stopBenv)]) =
      countSaves tr + 1 := by
  refine ⟨?_, ?_⟩
  · simp [stopWhileRunning, h, StopWrite]
  · unfold countSaves
    rw [List.countP_append]
    rfl

/-- Concrete instance of the amended C3: a stop right after entering the loop
adds exactly the one save of the raw build to the trace. -/
theorem stopWhileRunning_amended_witness :
    stopWhileRunning zeroAnalytics 0 [] benvEx =
      some ([] ++ [Action.save (getAnalytics (0 : Int) benvEx)]) ∧
    countSaves ([] ++ [Action.save (getAnalytics (0 : Int) benvEx)]) =
      countSaves [] + 1 :=
  stopWhileRunning_amended zeroAnalytics 0 [] benvEx ⟨0, zeroAnalytics⟩ [] rfl

/-- Claim C8 — the code contradicts its "incremented after every upload
cycle, including attempted-but-failed ones" part: an upload cycle whose
response-body read fails performs its POST roundtrip but returns before
`s.uploads++`, so the counter stays at 5 after an attempted upload — not
strictly increasing. -/
theorem sendReport_skips_increment_on_read_error :
    sendReport 5 zeroAnalytics benvEx ⟨true, .resp false⟩ =
      some (5, [Action.mergeCall zeroAnalytics (getAnalytics 5 benvEx),
                Action.post zeroAnalytics]) := rfl

/-- Claim C8 as amended: the upload counter is incremented after every upload
cycle except those cut short by a serialization failure or by a failure
reading the response body (a transport-failed POST still increments); it is
therefore non-decreasing across calls; it is embedded in every built snapshot
as the gauge field `UploadIndex`; and the merge never sums it with the
baseline (the merged result's `UploadIndex` is always zero). -/
theorem sendReport_uploads_counter (uploads : Int) (baseline : Analytics)
    (benv : BuildEnv) (renv : ReportEnv) :
    ∃ tr, sendReport uploads baseline benv renv =
        some ((if renv.marshalOk = false then uploads
               else match renv.post with
                    | .resp false => uploads
                    | _ => uploads + 1), tr) ∧
      uploads ≤ (if renv.marshalOk = false then uploads
                 else match renv.post with
                      | .resp false => uploads
                      | _ => uploads + 1) ∧
      (getAnalytics uploads benv).UploadIndex = uploads ∧
      (mergeAnalytics baseline (getAnalytics uploads benv)).map
        (fun a => a.UploadIndex) = some 0 := by
  obtain ⟨mOk, po⟩ := renv
  cases mOk with
  | false => exact ⟨_, rfl, le_refl _, rfl, rfl⟩
  | true =>
    cases po with
    | postErr =>
      exact ⟨_, rfl, by show uploads ≤ uploads + 1; omega, rfl, rfl⟩
    | resp rOk =>
      cases rOk with
      | true =>
        exact ⟨_, rfl, by show uploads ≤ uploads + 1; omega, rfl, rfl⟩
      | false => exact ⟨_, rfl, le_refl _, rfl, rfl⟩

end Pyroscope
